import Mathlib

/-!
A shallow embedding of the core of the `units` C++ library
(`include/units.h`): the dimension vector (`base_unit`), the unit
descriptor (`unit`), the unit algebra (`unit_multiply`, `squared`, …),
the conversion engine (`_convert` / `convert`), and the quantity
container (`unit_t`) with its linear and decibel scales.

C++ `std::ratio` template parameters are exact compile-time rationals
reduced to lowest terms with a positive denominator; they are embedded
as Lean's `ℚ` (which maintains the same invariants).  The value type
`T` (`double` in every instantiation that the repository exercises) is
idealised as `ℝ`; `std::pow` on reals is `Real.rpow` and `std::log10`
is `Real.logb 10`.
-/

namespace units

/-- The dimension vector: `base_unit<Meter, Kilogram, Second, Radian,
Ampere, Kelvin, Mole, Candela>`, an 8-tuple of rational exponents
(units.h lines 267-285). -/
structure base_unit where
  meter : ℚ
  kilogram : ℚ
  second : ℚ
  radian : ℚ
  ampere : ℚ
  kelvin : ℚ
  mole : ℚ
  candela : ℚ
deriving DecidableEq, Repr

namespace category

/-- `category::scalar_unit = base_unit<>` (all exponents zero). -/
def scalar_unit : base_unit := ⟨0, 0, 0, 0, 0, 0, 0, 0⟩

/-- `category::length_unit = base_unit<std::ratio<1>>`. -/
def length_unit : base_unit := ⟨1, 0, 0, 0, 0, 0, 0, 0⟩

/-- `category::time_unit`. -/
def time_unit : base_unit := ⟨0, 0, 1, 0, 0, 0, 0, 0⟩

/-- `category::temperature_unit`. -/
def temperature_unit : base_unit := ⟨0, 0, 0, 0, 0, 1, 0, 0⟩

end category

/-- `base_unit_multiply`: elementwise `std::ratio_add` of the two
exponent tuples (units.h lines 420-427). -/
def base_unit_multiply (u1 u2 : base_unit) : base_unit :=
  ⟨u1.meter + u2.meter, u1.kilogram + u2.kilogram, u1.second + u2.second,
   u1.radian + u2.radian, u1.ampere + u2.ampere, u1.kelvin + u2.kelvin,
   u1.mole + u2.mole, u1.candela + u2.candela⟩

/-- `squared_base`: elementwise `std::ratio_multiply` with `std::ratio<2>`
(units.h lines 462-468). -/
def squared_base (u : base_unit) : base_unit :=
  ⟨u.meter * 2, u.kilogram * 2, u.second * 2, u.radian * 2,
   u.ampere * 2, u.kelvin * 2, u.mole * 2, u.candela * 2⟩

/-- The unit descriptor carried by a `unit<Conversion, BaseUnit,
PiExponent, Translation>` type: its SI dimension vector
(`base_unit_type`, obtained through `base_unit_of`), its conversion
ratio to the base unit, its exponent of π, and its additive datum
translation (units.h lines 347-358 and 376-387). -/
structure unit where
  base_unit_type : base_unit
  conversion_ratio : ℚ
  pi_exponent_ratio : ℚ
  translation_ratio : ℚ
deriving DecidableEq, Repr

/-- The specialization `unit<Conversion, base_unit<Exponents...>,
PiExponent, Translation>` (units.h lines 347-358): when the base is a
`base_unit` the descriptor's fields are the template parameters
themselves. -/
def unit.ofBase (Conversion : ℚ) (b : base_unit) (PiExponent Translation : ℚ) : unit :=
  ⟨b, Conversion, PiExponent, Translation⟩

/-- The primary template `unit<Conversion, BaseUnit, PiExponent,
Translation>` for `BaseUnit` itself a `unit` (units.h lines 376-387):
  - `base_unit_type` = the base's `base_unit_type`;
  - `conversion_ratio` = `ratio_multiply<BaseUnit::conversion_ratio, Conversion>`;
  - `pi_exponent_ratio` = `ratio_add<BaseUnit::pi_exponent_ratio, PiExponent>`;
  - `translation_ratio` =
    `ratio_add<ratio_multiply<BaseUnit::conversion_ratio, Translation>, BaseUnit::translation_ratio>`. -/
def unit.derive (Conversion : ℚ) (B : unit) (PiExponent Translation : ℚ) : unit :=
  ⟨B.base_unit_type,
   B.conversion_ratio * Conversion,
   B.pi_exponent_ratio + PiExponent,
   B.conversion_ratio * Translation + B.translation_ratio⟩

/-- `unit_multiply<Unit1, Unit2>` (units.h lines 492-502): conversion
ratios multiply, dimension vectors add, π-exponents add, and the
translation of the product is `std::ratio<0>`. -/
def unit_multiply (u1 u2 : unit) : unit :=
  ⟨base_unit_multiply u1.base_unit_type u2.base_unit_type,
   u1.conversion_ratio * u2.conversion_ratio,
   u1.pi_exponent_ratio + u2.pi_exponent_ratio,
   0⟩

/-- `squared<Unit>` (units.h lines 542-551): conversion ratio squared,
dimension exponents doubled, π-exponent doubled, translation `ratio<0>`. -/
def squared (u : unit) : unit :=
  ⟨squared_base u.base_unit_type,
   u.conversion_ratio * u.conversion_ratio,
   u.pi_exponent_ratio * 2,
   0⟩

/-- `is_convertible_unit<U1, U2>` (units.h lines 627-629): the two
units' `base_unit_of` dimension vectors are the same type. -/
def is_convertible_unit (u1 u2 : unit) : Bool :=
  decide (u1.base_unit_type = u2.base_unit_type)

--------------------------------------------------------------------------------
-- Conversion engine
--------------------------------------------------------------------------------

/-- `_convert<UnitFrom, UnitTo, T>` for units that are *not* the same
type, dispatched on the `piRequired` and `translationRequired` booleans
(units.h lines 663-697).  Each branch is transcribed literally:
`Ratio = ratio_divide<From::conversion_ratio, To::conversion_ratio>` and
the returned expression is `double(Ratio::num) * value / Ratio::den`,
optionally multiplied by `std::pow(PI, double(PiRatio::num)/PiRatio::den)`
and/or incremented by `double(Translation::num) / Translation::den`. -/
noncomputable def _convert (value : ℝ) (From To : unit)
    (piRequired translationRequired : Bool) : ℝ :=
  let Ratio : ℚ := From.conversion_ratio / To.conversion_ratio
  match piRequired, translationRequired with
  | false, false =>
      (Ratio.num : ℝ) * value / (Ratio.den : ℝ)
  | true, false =>
      let PiRatio : ℚ := From.pi_exponent_ratio - To.pi_exponent_ratio
      ((Ratio.num : ℝ) * value / (Ratio.den : ℝ)) *
        Real.pi ^ ((PiRatio.num : ℝ) / (PiRatio.den : ℝ))
  | false, true =>
      let Translation : ℚ :=
        (From.translation_ratio - To.translation_ratio) / To.conversion_ratio
      ((Ratio.num : ℝ) * value / (Ratio.den : ℝ)) +
        ((Translation.num : ℝ) / (Translation.den : ℝ))
  | true, true =>
      let PiRatio : ℚ := From.pi_exponent_ratio - To.pi_exponent_ratio
      let Translation : ℚ :=
        (From.translation_ratio - To.translation_ratio) / To.conversion_ratio
      ((Ratio.num : ℝ) * value / (Ratio.den : ℝ)) *
        Real.pi ^ ((PiRatio.num : ℝ) / (PiRatio.den : ℝ)) +
        ((Translation.num : ℝ) / (Translation.den : ℝ))

/-- `convert<UnitFrom, UnitTo, T>(value)` (units.h lines 704-718).
`isSame` is `std::is_same<UnitFrom, UnitTo>` — in the descriptor
embedding, equality of the descriptors; when it holds every
`_convert(value, std::true_type, _, _)` overload (units.h lines
635-661) returns `value` unchanged, whatever the other two booleans.
`piRequired` is false iff both π-exponents are `std::ratio<0>`, and
`translationRequired` is false iff both translations are
`std::ratio<0>`. -/
noncomputable def convert (value : ℝ) (From To : unit) : ℝ :=
  if From = To then value
  else
    _convert value From To
      (!(decide (From.pi_exponent_ratio = 0) && decide (To.pi_exponent_ratio = 0)))
      (!(decide (From.translation_ratio = 0) && decide (To.translation_ratio = 0)))

--------------------------------------------------------------------------------
-- Catalog units used by the claims (transcribed from units.h)
--------------------------------------------------------------------------------

/-- `length::meters = unit<std::ratio<1>, category::length_unit>` (line 1204). -/
def meters : unit := unit.ofBase 1 category.length_unit 0 0

/-- `length::feet = unit<std::ratio<381, 1250>, meters>` (line 1210). -/
def feet : unit := unit.derive (381 / 1250) meters 0 0

/-- `time::seconds = unit<std::ratio<1>, category::time_unit>` (line 1357). -/
def seconds : unit := unit.ofBase 1 category.time_unit 0 0

/-- `time::minutes = unit<std::ratio<60>, seconds>` (line 1361). -/
def minutes : unit := unit.derive 60 seconds 0 0

/-- `time::hours = unit<std::ratio<60>, minutes>` (line 1362). -/
def hours : unit := unit.derive 60 minutes 0 0

/-- `time::days = unit<std::ratio<24>, hours>` (line 1363). -/
def days : unit := unit.derive 24 hours 0 0

/-- `time::weeks = unit<std::ratio<7>, days>` (line 1364). -/
def weeks : unit := unit.derive 7 days 0 0

/-- `time::years = unit<std::ratio<365>, days>` (line 1365). -/
def years : unit := unit.derive 365 days 0 0

/-- `temperature::kelvin = unit<std::ratio<1>, category::temperature_unit>` (line 1479). -/
def kelvin : unit := unit.ofBase 1 category.temperature_unit 0 0

/-- `temperature::celsius = unit<std::ratio<1>, kelvin, std::ratio<0>,
std::ratio<27315, 100>>` (line 1480). -/
def celsius : unit := unit.derive 1 kelvin 0 (27315 / 100)

/-- `temperature::fahrenheit = unit<std::ratio<5, 9>, celsius,
std::ratio<0>, std::ratio<-160, 9>>` (line 1481). -/
def fahrenheit : unit := unit.derive (5 / 9) celsius 0 (-160 / 9)

/-- `dimensionless::scalar = unit<std::ratio<1>, category::scalar_unit>` (line 974). -/
def scalar : unit := unit.ofBase 1 category.scalar_unit 0 0

--------------------------------------------------------------------------------
-- Normal forms of the catalog descriptors
--------------------------------------------------------------------------------

theorem meters_def : meters = ⟨category.length_unit, 1, 0, 0⟩ := rfl

theorem feet_def : feet = ⟨category.length_unit, 381 / 1250, 0, 0⟩ := by
  simp only [feet, meters, unit.derive, unit.ofBase, unit.mk.injEq]
  norm_num

theorem seconds_def : seconds = ⟨category.time_unit, 1, 0, 0⟩ := rfl

theorem minutes_def : minutes = ⟨category.time_unit, 60, 0, 0⟩ := by
  simp only [minutes, seconds, unit.derive, unit.ofBase, unit.mk.injEq]
  norm_num

theorem hours_def : hours = ⟨category.time_unit, 3600, 0, 0⟩ := by
  simp only [hours, minutes_def, unit.derive, unit.mk.injEq]
  norm_num

theorem days_def : days = ⟨category.time_unit, 86400, 0, 0⟩ := by
  simp only [days, hours_def, unit.derive, unit.mk.injEq]
  norm_num

theorem weeks_def : weeks = ⟨category.time_unit, 604800, 0, 0⟩ := by
  simp only [weeks, days_def, unit.derive, unit.mk.injEq]
  norm_num

theorem years_def : years = ⟨category.time_unit, 31536000, 0, 0⟩ := by
  simp only [years, days_def, unit.derive, unit.mk.injEq]
  norm_num

theorem kelvin_def : kelvin = ⟨category.temperature_unit, 1, 0, 0⟩ := rfl

theorem celsius_def : celsius = ⟨category.temperature_unit, 1, 0, 27315 / 100⟩ := by
  simp only [celsius, kelvin, unit.derive, unit.ofBase, unit.mk.injEq]
  norm_num

theorem fahrenheit_def :
    fahrenheit = ⟨category.temperature_unit, 5 / 9, 0, 45967 / 180⟩ := by
  simp only [fahrenheit, celsius_def, unit.derive, unit.mk.injEq]
  norm_num

theorem scalar_def : scalar = ⟨category.scalar_unit, 1, 0, 0⟩ := rfl

--------------------------------------------------------------------------------
-- Helper lemmas about the conversion engine
--------------------------------------------------------------------------------

/-- `double(Ratio::num) * value / Ratio::den` is multiplication by the
exact rational `Ratio`. -/
theorem ratio_num_mul_div_den (q : ℚ) (x : ℝ) :
    (q.num : ℝ) * x / (q.den : ℝ) = (q : ℝ) * x := by
  rw [Rat.cast_def]
  exact mul_div_right_comm _ _ _

/-- `double(Translation::num) / Translation::den` is the exact rational
`Translation`. -/
theorem ratio_num_div_den (q : ℚ) :
    (q.num : ℝ) / (q.den : ℝ) = (q : ℝ) := by
  rw [Rat.cast_def]

theorem _convert_ff (value : ℝ) (From To : unit) :
    _convert value From To false false =
      ((From.conversion_ratio / To.conversion_ratio : ℚ) : ℝ) * value := by
  unfold _convert
  exact ratio_num_mul_div_den _ _

theorem _convert_tf (value : ℝ) (From To : unit) :
    _convert value From To true false =
      ((From.conversion_ratio / To.conversion_ratio : ℚ) : ℝ) * value *
        Real.pi ^
          (((From.pi_exponent_ratio - To.pi_exponent_ratio : ℚ) : ℝ)) := by
  unfold _convert
  simp only [ratio_num_mul_div_den, ratio_num_div_den]

theorem _convert_ft (value : ℝ) (From To : unit) :
    _convert value From To false true =
      ((From.conversion_ratio / To.conversion_ratio : ℚ) : ℝ) * value +
        (((From.translation_ratio - To.translation_ratio) / To.conversion_ratio : ℚ) : ℝ) := by
  unfold _convert
  simp only [ratio_num_mul_div_den, ratio_num_div_den]

theorem _convert_tt (value : ℝ) (From To : unit) :
    _convert value From To true true =
      ((From.conversion_ratio / To.conversion_ratio : ℚ) : ℝ) * value *
        Real.pi ^
          (((From.pi_exponent_ratio - To.pi_exponent_ratio : ℚ) : ℝ)) +
        (((From.translation_ratio - To.translation_ratio) / To.conversion_ratio : ℚ) : ℝ) := by
  unfold _convert
  simp only [ratio_num_mul_div_den, ratio_num_div_den]

theorem convert_of_ne (value : ℝ) (From To : unit) (hne : From ≠ To) :
    convert value From To =
      _convert value From To
        (!(decide (From.pi_exponent_ratio = 0) && decide (To.pi_exponent_ratio = 0)))
        (!(decide (From.translation_ratio = 0) && decide (To.translation_ratio = 0))) := by
  unfold convert
  rw [if_neg hne]

/-- The four `_convert(value, std::true_type, _, _)` overloads (units.h
lines 635-661) all return `value` unchanged, so `convert` between a
unit and itself is the identity. -/
theorem convert_self (x : ℝ) (U : unit) : convert x U U = x := by
  unfold convert
  rw [if_pos rfl]

--------------------------------------------------------------------------------
-- Scales and the quantity container
--------------------------------------------------------------------------------

/-- `linear_scale<T>::linear_scale(T value) : m_value(value)`
(units.h line 961): the stored value is the argument itself. -/
def linear_scale_of (value : ℝ) : ℝ := value

/-- `decibel_scale<T>::decibel_scale(T value)` (units.h line 1118):
`m_value = std::pow(10, value / 10)`. -/
noncomputable def decibel_scale_of (value : ℝ) : ℝ := (10 : ℝ) ^ (value / 10)

/-- `decibel_scale<T>::operator()` (units.h line 1119):
`10 * std::log10(m_value)`. -/
noncomputable def decibel_scale_read (m_value : ℝ) : ℝ := 10 * Real.logb 10 m_value

/-- The quantity container `unit_t<Units, T, NonLinearScale>` (units.h
lines 813-906): a stored value `m_value` tagged with a unit descriptor.
The scale is tracked by which operations below are applied to it. -/
structure unit_t where
  unit_type : unit
  m_value : ℝ

/-- A default-constructed linear-scale quantity: `unit_t() :
NonLinearScale<T>(0)` (units.h line 828) passes `0` to
`linear_scale(T)`. -/
def unit_t.mk_default_linear (Units : unit) : unit_t :=
  ⟨Units, linear_scale_of 0⟩

/-- A default-constructed decibel-scale quantity: `unit_t() :
NonLinearScale<T>(0)` (units.h line 828) passes `0` to
`decibel_scale(T)`, which stores `std::pow(10, 0/10)`. -/
noncomputable def unit_t.mk_default_decibel (Units : unit) : unit_t :=
  ⟨Units, decibel_scale_of 0⟩

/-- `operator*` on two linear-scale quantities (units.h lines
1028-1042).  The two overloads are selected by
`is_convertible_unit_t<Lhs, Rhs>`, i.e. by whether the dimension
vectors agree.  In the convertible overload the result is
`unit_t<compound_unit<squared<LhsUnits>>>` (`compound_unit` of a single
unit is that unit, units.h line 585) holding
`lhs.m_value * convert<RhsUnits, LhsUnits>(rhs.m_value)`; in the
non-convertible overload it is
`unit_t<compound_unit<LhsUnits, RhsUnits>>` holding
`lhs.m_value * rhs.m_value` with no conversion. -/
noncomputable def unit_t.mul (lhs rhs : unit_t) : unit_t :=
  if is_convertible_unit lhs.unit_type rhs.unit_type then
    ⟨squared lhs.unit_type,
     lhs.m_value * convert rhs.m_value rhs.unit_type lhs.unit_type⟩
  else
    ⟨unit_multiply lhs.unit_type rhs.unit_type,
     lhs.m_value * rhs.m_value⟩

/-- `unit_t::operator<=` (units.h lines 864-868):
`nls::m_value <= convert<UnitsRhs, Units>(rhs.m_value)`. -/
def unit_t.op_le (lhs rhs : unit_t) : Prop :=
  lhs.m_value ≤ convert rhs.m_value rhs.unit_type lhs.unit_type

/-- `unit_t::operator>` (units.h lines 870-874). -/
def unit_t.op_gt (lhs rhs : unit_t) : Prop :=
  lhs.m_value > convert rhs.m_value rhs.unit_type lhs.unit_type

/-- `unit_t::operator>=` (units.h lines 876-880). -/
def unit_t.op_ge (lhs rhs : unit_t) : Prop :=
  lhs.m_value ≥ convert rhs.m_value rhs.unit_type lhs.unit_type

/-- `unit_t::operator==` (units.h lines 882-886). -/
def unit_t.op_eq (lhs rhs : unit_t) : Prop :=
  lhs.m_value = convert rhs.m_value rhs.unit_type lhs.unit_type

/-- `unit_t::operator!=` (units.h lines 888-892). -/
def unit_t.op_ne (lhs rhs : unit_t) : Prop :=
  lhs.m_value ≠ convert rhs.m_value rhs.unit_type lhs.unit_type

/-- `unit_t::operator<` (units.h lines 858-862).  Unlike the other five
comparison operators, its body is
`return unit_t(nls::m_value < convert<UnitsRhs, Units>(rhs.m_value));`:
the boolean comparison result is fed to the `unit_t` constructor (for a
linear scale, `linear_scale(T)` stores it as `1.0` or `0.0`), and the
resulting `unit_t` is converted back to the `bool` return type through
the implicit conversion operator (units.h lines 898-899), which is only
available when `Units` is a scalar (dimensionless) unit and which
returns `convert<Units, unit<std::ratio<1>, category::scalar_unit>>(m_value)`;
the `double` so produced converts to `bool` as "is nonzero". -/
def unit_t.op_lt (lhs rhs : unit_t) : Prop :=
  convert
    (@ite ℝ (lhs.m_value < convert rhs.m_value rhs.unit_type lhs.unit_type)
      (Classical.propDecidable _) 1 0)
    lhs.unit_type scalar ≠ 0

/-- `operator+` on two decibel-scale quantities (units.h lines
1138-1149): the result is a `unit_t<compound_unit<squared<LhsUnits>>,
_, decibel_scale>` whose stored (linear) value is
`lhs.m_value * convert<RhsUnits, LhsUnits>(rhs.m_value)`. -/
noncomputable def unit_t.db_add (lhs rhs : unit_t) : unit_t :=
  ⟨squared lhs.unit_type,
   lhs.m_value * convert rhs.m_value rhs.unit_type lhs.unit_type⟩

/-- A `dimensionless::dB_t` (units.h line 1130) constructed from the
value `1`: `decibel_scale(1)` stores `10^(1/10)`. -/
noncomputable def one_dB : unit_t := ⟨scalar, decibel_scale_of 1⟩

/-- A dimensionless unit carrying a datum translation of 5:
`unit<std::ratio<1>, dimensionless::scalar, std::ratio<0>, std::ratio<5>>`. -/
def offset_scalar : unit := unit.derive 1 scalar 0 5

--------------------------------------------------------------------------------
-- Claims
--------------------------------------------------------------------------------

/-- C1: for every value `x` and every pair of units with equal
dimension vectors, equal π-exponents and equal translation offsets but
different conversion ratios, `convert` returns `x` multiplied by the
exact rational quotient `From.conversion_ratio / To.conversion_ratio`
(this covers every `_convert` dispatch branch the hypotheses allow:
when both π-exponents are nonzero-but-equal the π factor is `π^0 = 1`,
and when both translations are nonzero-but-equal the additive term is
`0`). -/
theorem convert_ratio_only_conversion (x : ℝ) (From To : unit)
    (hdim : From.base_unit_type = To.base_unit_type)
    (hpi : From.pi_exponent_ratio = To.pi_exponent_ratio)
    (htr : From.translation_ratio = To.translation_ratio)
    (hratio : From.conversion_ratio ≠ To.conversion_ratio) :
    convert x From To =
      x * ((From.conversion_ratio / To.conversion_ratio : ℚ) : ℝ) := by
  have hne : From ≠ To := by
    intro h
    exact hratio (by rw [h])
  rw [convert_of_ne x From To hne]
  have hpsub : From.pi_exponent_ratio - To.pi_exponent_ratio = 0 := by
    rw [hpi, sub_self]
  have htsub : From.translation_ratio - To.translation_ratio = 0 := by
    rw [htr, sub_self]
  by_cases hp : From.pi_exponent_ratio = 0 <;>
    by_cases ht : From.translation_ratio = 0
  · have f1 : (!(decide (From.pi_exponent_ratio = 0) &&
        decide (To.pi_exponent_ratio = 0))) = false := by
      simp [hp, ← hpi]
    have f2 : (!(decide (From.translation_ratio = 0) &&
        decide (To.translation_ratio = 0))) = false := by
      simp [ht, ← htr]
    rw [f1, f2, _convert_ff, mul_comm]
  · have f1 : (!(decide (From.pi_exponent_ratio = 0) &&
        decide (To.pi_exponent_ratio = 0))) = false := by
      simp [hp, ← hpi]
    have f2 : (!(decide (From.translation_ratio = 0) &&
        decide (To.translation_ratio = 0))) = true := by
      simp [← htr, ht]
    rw [f1, f2, _convert_ft, htsub, zero_div, Rat.cast_zero, add_zero, mul_comm]
  · have f1 : (!(decide (From.pi_exponent_ratio = 0) &&
        decide (To.pi_exponent_ratio = 0))) = true := by
      simp [← hpi, hp]
    have f2 : (!(decide (From.translation_ratio = 0) &&
        decide (To.translation_ratio = 0))) = false := by
      simp [ht, ← htr]
    rw [f1, f2, _convert_tf, hpsub, Rat.cast_zero, Real.rpow_zero, mul_one,
      mul_comm]
  · have f1 : (!(decide (From.pi_exponent_ratio = 0) &&
        decide (To.pi_exponent_ratio = 0))) = true := by
      simp [← hpi, hp]
    have f2 : (!(decide (From.translation_ratio = 0) &&
        decide (To.translation_ratio = 0))) = true := by
      simp [← htr, ht]
    rw [f1, f2, _convert_tt, hpsub, htsub, Rat.cast_zero, Real.rpow_zero,
      mul_one, zero_div, Rat.cast_zero, add_zero, mul_comm]

/-- C1 witness: meters and feet agree in dimension, π-exponent and
translation but differ in ratio, and converting `1` multiplies by the
exact quotient of their conversion ratios. -/
theorem convert_ratio_only_conversion_witness :
    convert 1 meters feet =
      1 * ((meters.conversion_ratio / feet.conversion_ratio : ℚ) : ℝ) :=
  convert_ratio_only_conversion 1 meters feet
    (by norm_num [meters_def, feet_def])
    (by norm_num [meters_def, feet_def])
    (by norm_num [meters_def, feet_def])
    (by norm_num [meters_def, feet_def])

/-- C4: converting a value between a unit and itself is the identity:
the dispatch selects the same-type `_convert` overload, which returns
the value unchanged. -/
theorem convert_identity_dispatch (x : ℝ) (U : unit) : convert x U U = x :=
  convert_self x U

/-- C5: the derived-unit descriptor `unit<ratio, B, piExp, translation>`
keeps `B`'s dimension vector, multiplies `B`'s conversion ratio by the
local ratio, adds the local π-exponent to `B`'s, and composes the local
translation as `B.conversion_ratio * translation + B.translation_ratio`. -/
theorem unit_derive_composition (B : unit) (ratio piExp translation : ℚ) :
    (unit.derive ratio B piExp translation).base_unit_type = B.base_unit_type ∧
    (unit.derive ratio B piExp translation).conversion_ratio =
      B.conversion_ratio * ratio ∧
    (unit.derive ratio B piExp translation).pi_exponent_ratio =
      B.pi_exponent_ratio + piExp ∧
    (unit.derive ratio B piExp translation).translation_ratio =
      B.conversion_ratio * translation + B.translation_ratio :=
  ⟨rfl, rfl, rfl, rfl⟩

/-- C6: `unit_multiply A B` has the elementwise sum of the two
dimension vectors, the exact rational product of the conversion ratios,
the sum of the π-exponents, and translation offset `0`. -/
theorem unit_multiply_composition (A B : unit) :
    unit_multiply A B =
      ⟨⟨A.base_unit_type.meter + B.base_unit_type.meter,
        A.base_unit_type.kilogram + B.base_unit_type.kilogram,
        A.base_unit_type.second + B.base_unit_type.second,
        A.base_unit_type.radian + B.base_unit_type.radian,
        A.base_unit_type.ampere + B.base_unit_type.ampere,
        A.base_unit_type.kelvin + B.base_unit_type.kelvin,
        A.base_unit_type.mole + B.base_unit_type.mole,
        A.base_unit_type.candela + B.base_unit_type.candela⟩,
       A.conversion_ratio * B.conversion_ratio,
       A.pi_exponent_ratio + B.pi_exponent_ratio,
       0⟩ :=
  rfl

/-- C10: a default-constructed decibel-scale quantity stores the linear
magnitude `pow(10, 0/10) = 1`, its read-back value `10·log10(1)` is
`0 dB`, and a default-constructed linear-scale quantity stores `0`. -/
theorem default_construction_identity_element (U : unit) :
    (unit_t.mk_default_decibel U).m_value = 1 ∧
    decibel_scale_read (unit_t.mk_default_decibel U).m_value = 0 ∧
    (unit_t.mk_default_linear U).m_value = 0 := by
  have h1 : (unit_t.mk_default_decibel U).m_value = 1 := by
    show decibel_scale_of 0 = 1
    unfold decibel_scale_of
    rw [zero_div, Real.rpow_zero]
  refine ⟨h1, ?_, rfl⟩
  rw [h1]
  unfold decibel_scale_read
  rw [Real.logb_one, mul_zero]

theorem offset_scalar_def :
    offset_scalar = ⟨category.scalar_unit, 1, 0, 5⟩ := by
  simp only [offset_scalar, scalar, unit.derive, unit.ofBase, unit.mk.injEq]
  norm_num

/-- The affine Celsius→Fahrenheit conversion is
`v ↦ (9/5)·v + 32` (the translation-offset `_convert` branch with
`Ratio = (1)/(5/9) = 9/5` and
`Translation = (27315/100 − 45967/180)/(5/9) = 32`). -/
theorem convert_celsius_fahrenheit (v : ℝ) :
    convert v celsius fahrenheit = ((9 / 5 : ℚ) : ℝ) * v + ((32 : ℚ) : ℝ) := by
  rw [convert_of_ne v celsius fahrenheit
    (by norm_num [celsius_def, fahrenheit_def, unit.mk.injEq])]
  have f1 : (!(decide (celsius.pi_exponent_ratio = 0) &&
      decide (fahrenheit.pi_exponent_ratio = 0))) = false := by
    norm_num [celsius_def, fahrenheit_def]
  have f2 : (!(decide (celsius.translation_ratio = 0) &&
      decide (fahrenheit.translation_ratio = 0))) = true := by
    norm_num [celsius_def, fahrenheit_def]
  rw [f1, f2, _convert_ft]
  have hr : (celsius.conversion_ratio / fahrenheit.conversion_ratio : ℚ) = 9 / 5 := by
    rw [celsius_def, fahrenheit_def]
    norm_num
  have ho : ((celsius.translation_ratio - fahrenheit.translation_ratio) /
      fahrenheit.conversion_ratio : ℚ) = 32 := by
    rw [celsius_def, fahrenheit_def]
    norm_num
  rw [hr, ho]

/-- C2: with Celsius defined over Kelvin with offset 273.15 and
Fahrenheit derived from Celsius with ratio 5/9 and offset −160/9,
`convert` maps 0 °C to exactly 32 °F and 100 °C to exactly 212 °F. -/
theorem convert_celsius_to_fahrenheit_exact :
    convert 0 celsius fahrenheit = 32 ∧ convert 100 celsius fahrenheit = 212 := by
  constructor
  · rw [convert_celsius_fahrenheit 0]
    push_cast
    norm_num
  · rw [convert_celsius_fahrenheit 100]
    push_cast
    norm_num

/-- `convert<years, weeks>(2.0)`: the ratio branch with
`Ratio = 31536000/604800 = 365/7`, so the result is `2 · 365/7 = 730/7`. -/
theorem convert_two_years_weeks : convert 2 years weeks = 730 / 7 := by
  rw [convert_of_ne 2 years weeks
    (by norm_num [years_def, weeks_def, unit.mk.injEq])]
  have f1 : (!(decide (years.pi_exponent_ratio = 0) &&
      decide (weeks.pi_exponent_ratio = 0))) = false := by
    norm_num [years_def, weeks_def]
  have f2 : (!(decide (years.translation_ratio = 0) &&
      decide (weeks.translation_ratio = 0))) = false := by
    norm_num [years_def, weeks_def]
  rw [f1, f2, _convert_ff]
  have hr : (years.conversion_ratio / weeks.conversion_ratio : ℚ) = 365 / 7 := by
    rw [years_def, weeks_def]
    norm_num
  rw [hr]
  push_cast
  norm_num

/-- C3 counterexample: the value claimed by the specification,
`104.357142857… = 1461/14` (which is `730.5/7`, i.e. a 365.25-day
year), is not within `5·10⁻⁷` of what the code computes: the code
returns `730/7 = 104.285714…`, which is `1/14` away. -/
theorem convert_years_weeks_claimed_value_false :
    ¬ |convert 2 years weeks - (1461 / 14 : ℝ)| ≤ 5e-7 := by
  rw [convert_two_years_weeks]
  rw [show (730 / 7 : ℝ) - 1461 / 14 = -(1 / 14) by norm_num]
  rw [abs_neg, abs_of_nonneg (by norm_num)]
  norm_num

/-- C3 amended: `convert<years, weeks>(2.0)` returns exactly
`730/7 = 104.2857142857…` weeks; in particular it is within `5·10⁻⁷`
of `104.2857142857`. -/
theorem convert_years_weeks_amended :
    convert 2 years weeks = 730 / 7 ∧
      |convert 2 years weeks - 104.2857142857| ≤ 5e-7 := by
  refine ⟨convert_two_years_weeks, ?_⟩
  rw [convert_two_years_weeks]
  rw [show (730 / 7 : ℝ) - 104.2857142857 = 1 / 70000000000 by norm_num]
  rw [abs_of_nonneg (by norm_num)]
  norm_num

/-- C7 counterexample: `feet` and `meters` are different unit
descriptors of the same dimension, and multiplying `1 ft` by `1 m`
does *not* give stored value `1 × 1`: `operator*` dispatches on
dimension convertibility, so it converts the right operand into feet
and stores `1 × (1250/381)`. -/
theorem mul_differing_descriptors_converts :
    feet ≠ meters ∧
      (unit_t.mul ⟨feet, 1⟩ ⟨meters, 1⟩).m_value ≠ 1 * 1 := by
  constructor
  · norm_num [feet_def, meters_def, unit.mk.injEq]
  · have hbranch : unit_t.mul ⟨feet, 1⟩ ⟨meters, 1⟩ =
        ⟨squared feet, 1 * convert 1 meters feet⟩ := by
      unfold unit_t.mul
      rw [if_pos (by norm_num [is_convertible_unit, feet_def, meters_def])]
    rw [hbranch]
    show 1 * convert 1 meters feet ≠ 1 * 1
    have hc : convert 1 meters feet = ((1250 / 381 : ℚ) : ℝ) := by
      rw [convert_of_ne 1 meters feet
        (by norm_num [meters_def, feet_def, unit.mk.injEq])]
      have f1 : (!(decide (meters.pi_exponent_ratio = 0) &&
          decide (feet.pi_exponent_ratio = 0))) = false := by
        norm_num [meters_def, feet_def]
      have f2 : (!(decide (meters.translation_ratio = 0) &&
          decide (feet.translation_ratio = 0))) = false := by
        norm_num [meters_def, feet_def]
      rw [f1, f2, _convert_ff]
      have hr : (meters.conversion_ratio / feet.conversion_ratio : ℚ) = 1250 / 381 := by
        rw [meters_def, feet_def]
        norm_num
      rw [hr, mul_one]
    rw [hc]
    push_cast
    norm_num

/-- C7 amended: `operator*` on linear-scale quantities dispatches on
*dimension* equality, not descriptor equality: when the two dimension
vectors agree (which includes both same-unit and differing-unit
operands) the result is the left unit squared with the right operand
converted into the left unit; only when the dimensions differ is the
result the product of the two units with no conversion applied.  In
both cases the result dimension is the elementwise sum of the operand
dimensions. -/
theorem mul_dispatch (lhs rhs : unit_t) :
    (lhs.unit_type.base_unit_type = rhs.unit_type.base_unit_type →
      unit_t.mul lhs rhs =
        ⟨squared lhs.unit_type,
         lhs.m_value * convert rhs.m_value rhs.unit_type lhs.unit_type⟩) ∧
    (lhs.unit_type.base_unit_type ≠ rhs.unit_type.base_unit_type →
      unit_t.mul lhs rhs =
        ⟨unit_multiply lhs.unit_type rhs.unit_type,
         lhs.m_value * rhs.m_value⟩) ∧
    (unit_t.mul lhs rhs).unit_type.base_unit_type =
      base_unit_multiply lhs.unit_type.base_unit_type
        rhs.unit_type.base_unit_type := by
  unfold unit_t.mul is_convertible_unit
  by_cases h : lhs.unit_type.base_unit_type = rhs.unit_type.base_unit_type
  · rw [if_pos (decide_eq_true h)]
    refine ⟨fun _ => rfl, fun hc => absurd h hc, ?_⟩
    show squared_base lhs.unit_type.base_unit_type =
      base_unit_multiply lhs.unit_type.base_unit_type
        rhs.unit_type.base_unit_type
    rw [← h]
    unfold squared_base base_unit_multiply
    congr 1 <;> ring
  · rw [if_neg (by simpa using h)]
    exact ⟨fun hc => absurd hc h, fun _ => rfl, rfl⟩

/-- C7 amended witness: multiplying a 1 ft quantity by a 2 m quantity
takes the convertible branch. -/
theorem mul_dispatch_witness :
    unit_t.mul ⟨feet, 1⟩ ⟨meters, 2⟩ =
      ⟨squared feet, 1 * convert 2 meters feet⟩ :=
  (mul_dispatch ⟨feet, 1⟩ ⟨meters, 2⟩).1
    (by norm_num [feet_def, meters_def])

/-- C8: `operator<` does not return the boolean comparison of
`lhs.m_value` against the converted right operand.  For the
dimensionless unit with translation offset 5 and both stored values 3,
the comparison `3 < 3` is false, but the operator wraps that `false`
in `unit_t(...)` (stored value `0.0`) and returns it through the
scalar implicit-conversion operator, which applies the unit's
translation and produces `5.0`, i.e. `true`. -/
theorem op_lt_bug_on_translated_scalar :
    unit_t.op_lt ⟨offset_scalar, 3⟩ ⟨offset_scalar, 3⟩ ∧
      ¬ ((3 : ℝ) < convert 3 offset_scalar offset_scalar) := by
  constructor
  · unfold unit_t.op_lt
    rw [convert_self]
    rw [if_neg (show ¬ ((3 : ℝ) < 3) by norm_num)]
    rw [convert_of_ne 0 offset_scalar scalar
      (by norm_num [offset_scalar_def, scalar_def, unit.mk.injEq])]
    have f1 : (!(decide (offset_scalar.pi_exponent_ratio = 0) &&
        decide (scalar.pi_exponent_ratio = 0))) = false := by
      norm_num [offset_scalar_def, scalar_def]
    have f2 : (!(decide (offset_scalar.translation_ratio = 0) &&
        decide (scalar.translation_ratio = 0))) = true := by
      norm_num [offset_scalar_def, scalar_def]
    rw [f1, f2, _convert_ft]
    have hr : (offset_scalar.conversion_ratio / scalar.conversion_ratio : ℚ) = 1 := by
      rw [offset_scalar_def, scalar_def]
      norm_num
    have ho : ((offset_scalar.translation_ratio - scalar.translation_ratio) /
        scalar.conversion_ratio : ℚ) = 5 := by
      rw [offset_scalar_def, scalar_def]
      norm_num
    rw [hr, ho]
    push_cast
    norm_num
  · rw [convert_self]
    norm_num

/-- C9: decibel `operator+` multiplies the underlying linear
magnitudes, converting the right operand into the left operand's unit
first; in particular `1 dB + 1 dB` stores the linear magnitude
`10^0.1 × 10^0.1`. -/
theorem db_add_multiplies_linear_magnitudes :
    (∀ lhs rhs : unit_t,
      lhs.unit_type.base_unit_type = rhs.unit_type.base_unit_type →
        (unit_t.db_add lhs rhs).m_value =
          lhs.m_value * convert rhs.m_value rhs.unit_type lhs.unit_type) ∧
    (unit_t.db_add one_dB one_dB).m_value =
      (10 : ℝ) ^ (0.1 : ℝ) * (10 : ℝ) ^ (0.1 : ℝ) := by
  constructor
  · intro lhs rhs _
    rfl
  · show one_dB.m_value * convert one_dB.m_value scalar scalar =
      (10 : ℝ) ^ (0.1 : ℝ) * (10 : ℝ) ^ (0.1 : ℝ)
    rw [convert_self]
    show decibel_scale_of 1 * decibel_scale_of 1 =
      (10 : ℝ) ^ (0.1 : ℝ) * (10 : ℝ) ^ (0.1 : ℝ)
    unfold decibel_scale_of
    norm_num

/-- C9 witness: the general decibel-addition law applied to the
concrete `1 dB` quantities. -/
theorem db_add_multiplies_linear_magnitudes_witness :
    (unit_t.db_add one_dB one_dB).m_value =
      one_dB.m_value * convert one_dB.m_value one_dB.unit_type one_dB.unit_type :=
  db_add_multiplies_linear_magnitudes.1 one_dB one_dB rfl

end units
